import Mathlib

/-!
Shallow embedding of the thermal-aware process supervisor in
`temperature_manager.py` (Discord-bot repository), together with proofs of
the specification's claims about it.

Temperatures are rationals (the source works with Python floats but every
threshold and every sample in the claims is exact in ℚ).  Wall-clock times
are naturals (seconds); elapsed-time arithmetic is carried out in ℤ, mirroring
`time.time() - THROTTLE_START_TIME`.  Side-effectful OS operations
(`renice`, `Popen`, signalling) are given an explicit outcome parameter;
alerts and log events are collected in an output list.
-/

namespace TemperatureManager

/-- Temperatures in degrees Celsius. -/
abbrev Temp := ℚ

def TEMP_ALERT_THRESHOLD : Temp := 85
def TEMP_RESUME_THRESHOLD : Temp := 60
def TEMP_KILL_THRESHOLD : Temp := 90
def THROTTLE_DURATION : Int := 300
def CHECK_INTERVAL : Nat := 10
def DISCORD_RETRY_DELAY : Nat := 30
def MAX_RESTART_ATTEMPTS : Nat := 3

/-- Python truthiness of an optional number: `None` and `0` are falsy.
The source tests `if not BOT_PID` and `if ... THROTTLE_START_TIME`. -/
def truthy : Option Nat → Bool
  | none => false
  | some n => n != 0

/-- The module-level mutable globals of `temperature_manager.py`, plus the
two alert-deduplication locals of `monitor_temperature` that persist across
loop iterations, and the last written content of the state file. -/
structure SupState where
  /-- `BOT_PROCESS is not None and BOT_PROCESS.poll() is None` -/
  botAlive : Bool
  /-- `BOT_PID` -/
  botPid : Option Nat
  /-- `IS_THROTTLED` -/
  isThrottled : Bool
  /-- `THROTTLE_START_TIME` (seconds since epoch) -/
  throttleStart : Option Nat
  /-- `RESTART_ATTEMPTS` -/
  restartAttempts : Nat
  /-- local `overheating_alerted` -/
  overheatingAlerted : Bool
  /-- local `cooling_alerted` -/
  coolingAlerted : Bool
  /-- last `save_state` payload `(bot_running, throttled)`; `none` = never written -/
  stateFile : Option (Bool × Bool)
  deriving Repr, DecidableEq

/-- Observable events of one loop iteration: Discord alerts sent by
`send_alert` calls and the `logging.critical` restart-exhaustion message. -/
inductive Event where
  | overheatingAlert
  | killAlert
  | cooledAlert
  | fatalLog
  | startAttempt
  deriving Repr, DecidableEq

/-- `start_bot()`.  `outcome = some pid` means `subprocess.Popen` succeeded
with that pid, `none` means it raised.  Returns the new globals, the boolean
return value, and the emitted events (`startAttempt` marks reaching the
`Popen` call, `fatalLog` the `logging.critical` after
`MAX_RESTART_ATTEMPTS` consecutive failures, which also resets the counter). -/
def start_bot (outcome : Option Nat) (s : SupState) : SupState × Bool × List Event :=
  if s.botAlive then
    ({ s with restartAttempts := 0 }, true, [])
  else
    match outcome with
    | some pid =>
        ({ s with botAlive := true, botPid := some pid, isThrottled := false,
                  restartAttempts := 0, stateFile := some (true, false) },
         true, [.startAttempt])
    | none =>
        let n := s.restartAttempts + 1
        if MAX_RESTART_ATTEMPTS ≤ n then
          ({ s with restartAttempts := 0 }, false, [.startAttempt, .fatalLog])
        else
          ({ s with restartAttempts := n }, false, [.startAttempt])

/-- `throttle_bot()`.  `reniceOk` is the outcome of `renice +10`; on failure
the exception is caught and no global changes. -/
def throttle_bot (now : Nat) (reniceOk : Bool) (s : SupState) : SupState :=
  if !truthy s.botPid || s.isThrottled then s
  else if reniceOk then
    { s with isThrottled := true, throttleStart := some now,
             stateFile := some (true, true) }
  else s

/-- `unthrottle_bot()`.  `reniceOk` is the outcome of `renice 0`. -/
def unthrottle_bot (reniceOk : Bool) (s : SupState) : SupState :=
  if !truthy s.botPid || !s.isThrottled then s
  else if reniceOk then
    { s with isThrottled := false, stateFile := some (true, false) }
  else s

/-- `stop_bot(force)`.  `stopOk` is whether the signalling sequence
(`kill`, or `terminate`/`wait`/`kill`) ran without raising; the globals and
the state file are updated only after it succeeds.  The `force` flag selects
the signal used but does not change which state is reached. -/
def stop_bot (_force : Bool) (stopOk : Bool) (s : SupState) : SupState × Bool :=
  if !s.botAlive then (s, true)
  else if stopOk then
    ({ s with botAlive := false, botPid := none, isThrottled := false,
              stateFile := some (false, false) }, true)
  else (s, false)

/-- Outcomes of the OS operations a single loop iteration may perform. -/
structure TickOps where
  reniceThrottleOk : Bool
  reniceUnthrottleOk : Bool
  stopOk : Bool
  startOutcome : Option Nat
  deriving Repr

/-- The `temp >= TEMP_ALERT_THRESHOLD` branch of `monitor_temperature`. -/
def hotBranch (now : Nat) (temp : Temp) (ops : TickOps) (s : SupState) :
    SupState × List Event :=
  let p :=
    if !s.overheatingAlerted then
      ({ s with overheatingAlerted := true, coolingAlerted := false },
       [Event.overheatingAlert])
    else (s, [])
  let s1 := p.1
  if s1.botAlive then
    let s2 := if !s1.isThrottled then throttle_bot now ops.reniceThrottleOk s1 else s1
    if s2.isThrottled && truthy s2.throttleStart then
      let t0 := s2.throttleStart.getD 0
      if THROTTLE_DURATION < (now : Int) - (t0 : Int) ∨ TEMP_KILL_THRESHOLD ≤ temp then
        ((stop_bot true ops.stopOk s2).1, p.2 ++ [Event.killAlert])
      else (s2, p.2)
    else (s2, p.2)
  else (s1, p.2)

/-- The `temp < TEMP_RESUME_THRESHOLD` branch of `monitor_temperature`. -/
def coolBranch (ops : TickOps) (s : SupState) : SupState × List Event :=
  if !s.botAlive then
    let p :=
      if !s.coolingAlerted then
        ({ s with coolingAlerted := true, overheatingAlerted := false },
         [Event.cooledAlert])
      else (s, [])
    let r := start_bot ops.startOutcome p.1
    (r.1, p.2 ++ r.2.2)
  else if s.isThrottled then
    let s1 := unthrottle_bot ops.reniceUnthrottleOk s
    ({ s1 with coolingAlerted := true, overheatingAlerted := false },
     [Event.cooledAlert])
  else (s, [])

/-- One iteration of the `monitor_temperature` loop on a successfully read
sample `temp`, taken at wall-clock second `now`. -/
def monitor_tick (now : Nat) (temp : Temp) (ops : TickOps) (s : SupState) :
    SupState × List Event :=
  if TEMP_ALERT_THRESHOLD ≤ temp then hotBranch now temp ops s
  else if temp < TEMP_RESUME_THRESHOLD then coolBranch ops s
  else (s, [])

/-- The spec's `SupervisorState`, derived from the globals. -/
inductive SState where
  | Stopped
  | Running
  | Throttled
  deriving Repr, DecidableEq

def stateOf (s : SupState) : SState :=
  if !s.botAlive then .Stopped
  else if s.isThrottled then .Throttled
  else .Running

/-- Run the loop over a list of `(now, temp)` samples, recording the derived
state and emitted events after each tick. -/
def runTicks (ops : TickOps) (s : SupState) :
    List (Nat × Temp) → List (SState × List Event)
  | [] => []
  | (now, t) :: rest =>
      let r := monitor_tick now t ops s
      (stateOf r.1, r.2) :: runTicks ops r.1 rest

/-- Outcome of the primary probe command `vcgencmd measure_temp`:
either the `subprocess.run` call raised (launch failure or the 5 s timeout),
or it completed with a return code and — when the stdout parse
`split("=")[1].replace(...)`/`float` succeeds — a parsed temperature
(`parsed = none` models the parse raising). -/
inductive PrimResult where
  | raises
  | exits (returncode : Int) (parsed : Option Temp)
  deriving Repr

/-- Outcome of reading `/sys/class/thermal/thermal_zone0/temp`:
an integer number of milli-degrees, or an exception (unreadable/unparsable). -/
inductive FileResult where
  | ok (milli : Int)
  | fails
  deriving Repr

/-- `get_pi_temperature()`.  The file fallback is attempted only in the
non-zero-returncode branch; any exception — including a raise of the primary
command or of the parse — is caught by the single `except` and yields `none`. -/
def get_pi_temperature : PrimResult → FileResult → Option Temp
  | .raises, _ => none
  | .exits rc parsed, fr =>
      if rc = 0 then parsed
      else
        match fr with
        | .ok m => some ((m : Temp) / 1000)
        | .fails => none

/-- Seconds spent in the retry loop of `send_alert` for one channel.
`fuel` is `max_retries - retry_count`; each attempt is a pair
`(duration, delivered)`, a failed attempt is followed by a
`DISCORD_RETRY_DELAY` sleep unless it was the last permitted one. -/
def attemptLoop : Nat → List (Nat × Bool) → Nat
  | 0, _ => 0
  | _ + 1, [] => 0
  | fuel + 1, (d, ok) :: rest =>
      if ok then d
      else if fuel = 0 then d
      else d + DISCORD_RETRY_DELAY + attemptLoop fuel rest

/-- Delivery seconds for one channel (at most 3 attempts). -/
def channelDeliverySeconds (attempts : List (Nat × Bool)) : Nat :=
  attemptLoop 3 attempts

/-- `send_alert` iterates over `CHANNEL_IDS` sequentially (`for channel_id
in CHANNEL_IDS` inside one coroutine), so its duration is the sum of the
per-channel delivery times. -/
def send_alert_seconds (channels : List (List (Nat × Bool))) : Nat :=
  (channels.map channelDeliverySeconds).sum

/-- Seconds from one sample to the next: `monitor_temperature` first `await`s
every `send_alert` of the tick inside the loop body, then
`await asyncio.sleep(CHECK_INTERVAL)` — all sequential in one coroutine. -/
def tickSeconds (alertDeliveries : List Nat) : Nat :=
  alertDeliveries.sum + CHECK_INTERVAL

/-- C8: with thresholds alert=85, resume=60, kill=90, duration=300 s, from
`Running` the sample sequence [70, 86, 87, 91] at 10 s intervals yields the
state sequence [Running, Throttled, Throttled, Stopped], and a kill alert is
emitted exactly at the tick processing 91 (the tick at 86 emits only an
overheating alert). -/
theorem claim_C8_scenario_A :
    runTicks ⟨true, true, true, none⟩
      ⟨true, some 5, false, none, 0, false, false, some (true, false)⟩
      [(10, 70), (20, 86), (30, 87), (40, 91)] =
    [(SState.Running, []),
     (SState.Throttled, [Event.overheatingAlert]),
     (SState.Throttled, []),
     (SState.Stopped, [Event.killAlert])] := by decide

/-- C3 counterexample: in `Throttled` (window opened at second 100) with
sample 86 at second 400 — elapsed time exactly 300 s, so
`now - ThrottleWindow ≥ throttleDuration` holds — the tick does NOT stop the
worker and emits no kill alert: the source compares with strict `>`
(`time_throttled > THROTTLE_DURATION`), not `≥`. -/
theorem claim_C3_counterexample :
    stateOf (monitor_tick 400 86 ⟨true, true, true, none⟩
      ⟨true, some 42, true, some 100, 0, true, false, some (true, true)⟩).1 =
      SState.Throttled ∧
    Event.killAlert ∉ (monitor_tick 400 86 ⟨true, true, true, none⟩
      ⟨true, some 42, true, some 100, 0, true, false, some (true, true)⟩).2 := by
  decide

/-- C5 counterexample: in `Throttled` (window opened at second 120) a sample
of 50 < resumeThreshold restores the worker to `Running`, but the throttle
window `THROTTLE_START_TIME` is NOT cleared — `unthrottle_bot` only resets
`IS_THROTTLED`; the claim's "clears the throttle window" is false. -/
theorem claim_C5_counterexample :
    stateOf (monitor_tick 500 50 ⟨true, true, true, none⟩
      ⟨true, some 7, true, some 120, 0, true, false, some (true, true)⟩).1 =
      SState.Running ∧
    (monitor_tick 500 50 ⟨true, true, true, none⟩
      ⟨true, some 7, true, some 120, 0, true, false, some (true, true)⟩).1.throttleStart
      = some 120 := by decide

/-- C6 counterexample: `stop_bot` leaves the `Throttled` state (the worker is
stopped, `IS_THROTTLED := False`) yet `THROTTLE_START_TIME` keeps its value
`some 111`: the window is non-null while the state is `Stopped`, refuting
"set if and only if Throttled". -/
theorem claim_C6_counterexample :
    stateOf (stop_bot true true
      ⟨true, some 9, true, some 111, 0, true, false, some (true, true)⟩).1 =
      SState.Stopped ∧
    (stop_bot true true
      ⟨true, some 9, true, some 111, 0, true, false, some (true, true)⟩).1.throttleStart
      = some 111 := by decide

/-- C7 counterexample: when the primary `vcgencmd` call raises (launch
failure or timeout), `get_pi_temperature` returns `none` WITHOUT attempting
the file fallback, even though the sensor file is readable and would give
42000 / 1000 = 42 °C: the single `except` around the whole body swallows the
exception before the fallback is reached. -/
theorem claim_C7_counterexample :
    get_pi_temperature PrimResult.raises (FileResult.ok 42000) = none ∧
    ((42000 : Int) : Temp) / 1000 = 42 := by
  constructor
  · rfl
  · norm_num

/-- C2 counterexample: starting from `Stopped` with the restart counter at 0,
six consecutive ticks with sample 50 (< resumeThreshold) and a failing
`Popen`: a start is attempted at EVERY tick — including the fourth, fifth and
sixth, after `maxRestartAttempts = 3` consecutive failures — and the fatal
`logging.critical` fires at the third AND at the sixth tick (the counter
self-resets to 0 after each fatal), refuting both "exactly one fatal alert"
and "no further automatic start attempt until external reset". -/
theorem claim_C2_counterexample :
    (runTicks ⟨true, true, true, none⟩
        ⟨false, none, false, none, 0, false, false, none⟩
        [(10, 50), (20, 50), (30, 50), (40, 50), (50, 50), (60, 50)]).map
      (fun p => (decide (Event.startAttempt ∈ p.2), decide (Event.fatalLog ∈ p.2)))
    = [(true, false), (true, false), (true, true),
       (true, false), (true, false), (true, true)] := by decide

/-- C4 counterexample: the tick from `Running` at sample 86 emits an
overheating alert; `monitor_temperature` `await`s `send_alert` inline before
`asyncio.sleep(CHECK_INTERVAL)`, so with a single unreachable channel (three
failed 1 s attempts separated by two 30 s retry delays, 63 s total) the next
sample is taken 73 s after this one — far beyond `sampleInterval = 10 s`,
refuting "delivery happens off the sampling loop's critical path". -/
theorem claim_C4_counterexample :
    Event.overheatingAlert ∈ (monitor_tick 10 86 ⟨true, true, true, none⟩
      ⟨true, some 5, false, none, 0, false, false, some (true, false)⟩).2 ∧
    send_alert_seconds [[(1, false), (1, false), (1, false)]] = 63 ∧
    tickSeconds [send_alert_seconds [[(1, false), (1, false), (1, false)]]] = 73 ∧
    CHECK_INTERVAL < tickSeconds [send_alert_seconds [[(1, false), (1, false), (1, false)]]] := by
  decide

/-- C1: from every prior supervisor state (Stopped, Running or Throttled),
if the sampled temperature is ≥ killThreshold = 90 then — provided the
tick's renice/stop operations succeed, a live worker has a truthy pid, a
throttled worker has a truthy window, and the clock is non-zero — the tick
ends in state `Stopped`, and whenever a worker existed it is force-stopped
with a kill alert emitted; no other per-sample rule can prevent this. -/
theorem claim_C1_kill_yields_stopped (now : Nat) (temp : Temp) (ops : TickOps)
    (s : SupState)
    (hpid : s.botAlive = true → truthy s.botPid = true)
    (hts : s.isThrottled = true → truthy s.throttleStart = true)
    (hn : now ≠ 0)
    (ht : TEMP_KILL_THRESHOLD ≤ temp)
    (hren : ops.reniceThrottleOk = true)
    (hstop : ops.stopOk = true) :
    stateOf (monitor_tick now temp ops s).1 = SState.Stopped ∧
    (s.botAlive = true → Event.killAlert ∈ (monitor_tick now temp ops s).2) := by
  have halert : TEMP_ALERT_THRESHOLD ≤ temp := by
    unfold TEMP_KILL_THRESHOLD at ht
    unfold TEMP_ALERT_THRESHOLD
    linarith
  obtain ⟨renT, renU, stp, so⟩ := ops
  simp only at hren hstop
  subst hren
  subst hstop
  obtain ⟨alive, pid, thr, tstart, ra, oa, ca, sf⟩ := s
  simp only at hpid hts
  simp only [monitor_tick, if_pos halert]
  cases alive with
  | false =>
    refine ⟨?_, by simp⟩
    cases oa <;> simp [hotBranch, stateOf]
  | true =>
    have hpid' : truthy pid = true := hpid rfl
    cases thr with
    | true =>
      have hts' : truthy tstart = true := hts rfl
      constructor
      · cases oa <;> simp [hotBranch, stateOf, stop_bot, hts', ht]
      · intro _
        cases oa <;> simp [hotBranch, hts', ht]
    | false =>
      have hnow : truthy (some now) = true := by
        simp [truthy, hn]
      constructor
      · cases oa <;>
          simp [hotBranch, throttle_bot, stateOf, stop_bot, hpid', hnow, ht]
      · intro _
        cases oa <;> simp [hotBranch, throttle_bot, hpid', hnow, ht]

/-- C1 witness: a concrete `Running` state at 95 °C ends `Stopped` with a
kill alert. -/
theorem claim_C1_kill_yields_stopped_witness :
    stateOf (monitor_tick 10 95 ⟨true, true, true, none⟩
      ⟨true, some 5, false, none, 0, false, false, some (true, false)⟩).1 =
      SState.Stopped ∧
    Event.killAlert ∈ (monitor_tick 10 95 ⟨true, true, true, none⟩
      ⟨true, some 5, false, none, 0, false, false, some (true, false)⟩).2 := by
  exact ⟨(claim_C1_kill_yields_stopped 10 95 ⟨true, true, true, none⟩
      ⟨true, some 5, false, none, 0, false, false, some (true, false)⟩
      (fun _ => by decide) (fun h => nomatch h) (by decide) (by decide)
      rfl rfl).1,
    (claim_C1_kill_yields_stopped 10 95 ⟨true, true, true, none⟩
      ⟨true, some 5, false, none, 0, false, false, some (true, false)⟩
      (fun _ => by decide) (fun h => nomatch h) (by decide) (by decide)
      rfl rfl).2 rfl⟩

/-- C3 (amended): in `Throttled` with a sample in [alertThreshold,
killThreshold), duration escalation uses the STRICT comparison
`now - ThrottleWindow > throttleDuration` (the source tests
`time_throttled > THROTTLE_DURATION`): when the elapsed time strictly
exceeds 300 s the worker is force-stopped, the state becomes `Stopped` and a
kill alert is emitted at that tick; at elapsed time ≤ 300 s — including
exactly 300 s — the state stays `Throttled` and no kill alert is emitted. -/
theorem claim_C3_duration_escalation (now t0 : Nat) (temp : Temp)
    (ops : TickOps) (s : SupState)
    (hA : s.botAlive = true) (hTh : s.isThrottled = true)
    (hts : s.throttleStart = some t0) (ht0 : t0 ≠ 0)
    (hlo : TEMP_ALERT_THRESHOLD ≤ temp) (hhi : temp < TEMP_KILL_THRESHOLD)
    (hstop : ops.stopOk = true) :
    (THROTTLE_DURATION < (now : Int) - (t0 : Int) →
      stateOf (monitor_tick now temp ops s).1 = SState.Stopped ∧
      Event.killAlert ∈ (monitor_tick now temp ops s).2) ∧
    ((now : Int) - (t0 : Int) ≤ THROTTLE_DURATION →
      stateOf (monitor_tick now temp ops s).1 = SState.Throttled ∧
      Event.killAlert ∉ (monitor_tick now temp ops s).2) := by
  obtain ⟨renT, renU, stp, so⟩ := ops
  simp only at hstop
  subst hstop
  obtain ⟨alive, pid, thr, tstart, ra, oa, ca, sf⟩ := s
  simp only at hA hTh hts
  subst hA
  subst hTh
  subst hts
  have hts' : truthy (some t0) = true := by simp [truthy, ht0]
  have hnk : ¬ TEMP_KILL_THRESHOLD ≤ temp := not_le.mpr hhi
  constructor
  · intro hgt
    constructor
    · cases oa <;>
        simp [monitor_tick, hlo, hotBranch, stateOf, stop_bot, hts', hgt]
    · cases oa <;> simp [monitor_tick, hlo, hotBranch, hts', hgt]
  · intro hle
    have hngt : ¬ THROTTLE_DURATION < (now : Int) - (t0 : Int) := not_lt.mpr hle
    constructor
    · cases oa <;>
        simp [monitor_tick, hlo, hotBranch, stateOf, hts', hngt, hnk]
    · cases oa <;> simp [monitor_tick, hlo, hotBranch, hts', hngt, hnk]

/-- C3 witness: window opened at second 100; at second 401 (elapsed 301 s)
with sample 86 the tick stops the worker and emits the kill alert. -/
theorem claim_C3_duration_escalation_witness :
    stateOf (monitor_tick 401 86 ⟨true, true, true, none⟩
      ⟨true, some 42, true, some 100, 0, true, false, some (true, true)⟩).1 =
      SState.Stopped ∧
    Event.killAlert ∈ (monitor_tick 401 86 ⟨true, true, true, none⟩
      ⟨true, some 42, true, some 100, 0, true, false, some (true, true)⟩).2 :=
  (claim_C3_duration_escalation 401 100 86 ⟨true, true, true, none⟩
    ⟨true, some 42, true, some 100, 0, true, false, some (true, true)⟩
    rfl rfl rfl (by decide) (by decide) (by decide) rfl).1 (by decide)

/-- C9: `stop_bot` is atomic with respect to the supervisor globals: with no
live worker it returns `True` leaving the whole state (in particular
`BOT_PID`, `IS_THROTTLED` and the state file) untouched, and when the
signalling raises it returns `False` with the whole state untouched —
globals and state file are updated only after the stop succeeds. -/
theorem claim_C9_stop_atomic (s : SupState) (f : Bool) :
    (s.botAlive = false →
      stop_bot f true s = (s, true) ∧ stop_bot f false s = (s, true)) ∧
    (s.botAlive = true → stop_bot f false s = (s, false)) := by
  constructor
  · intro h
    constructor <;> simp [stop_bot, h]
  · intro h
    simp [stop_bot, h]

/-- C9 witness: concrete dead-worker and live-worker states. -/
theorem claim_C9_stop_atomic_witness :
    stop_bot true true ⟨false, none, false, some 50, 1, true, false, none⟩ =
      (⟨false, none, false, some 50, 1, true, false, none⟩, true) ∧
    stop_bot false false ⟨true, some 8, true, some 50, 0, true, false, some (true, true)⟩ =
      (⟨true, some 8, true, some 50, 0, true, false, some (true, true)⟩, false) :=
  ⟨((claim_C9_stop_atomic ⟨false, none, false, some 50, 1, true, false, none⟩ true).1
      rfl).1,
   (claim_C9_stop_atomic ⟨true, some 8, true, some 50, 0, true, false, some (true, true)⟩
      false).2 rfl⟩

/-- C10: `throttle_bot` is a no-op (no priority change, no state-file write,
no `THROTTLE_START_TIME` update) when the worker pid is falsy or the worker
is already throttled, and `unthrottle_bot` is a no-op when the pid is falsy
or the worker is not throttled; consequently running either operation twice
in succession (same renice outcome) equals running it once. -/
theorem claim_C10_idempotent (s : SupState) (n1 n2 : Nat) (o : Bool) :
    (truthy s.botPid = false ∨ s.isThrottled = true → throttle_bot n1 o s = s) ∧
    (truthy s.botPid = false ∨ s.isThrottled = false → unthrottle_bot o s = s) ∧
    throttle_bot n2 o (throttle_bot n1 o s) = throttle_bot n1 o s ∧
    unthrottle_bot o (unthrottle_bot o s) = unthrottle_bot o s := by
  refine ⟨?_, ?_, ?_, ?_⟩
  · rintro (h | h) <;> simp [throttle_bot, h]
  · rintro (h | h) <;> simp [unthrottle_bot, h]
  · rcases Bool.eq_false_or_eq_true (truthy s.botPid) with hp | hp <;>
      rcases Bool.eq_false_or_eq_true s.isThrottled with hth | hth <;>
        cases o <;> simp [throttle_bot, hp, hth]
  · rcases Bool.eq_false_or_eq_true (truthy s.botPid) with hp | hp <;>
      rcases Bool.eq_false_or_eq_true s.isThrottled with hth | hth <;>
        cases o <;> simp [unthrottle_bot, hp, hth]

/-- C10 witness: a throttled worker state — `throttle_bot` is a no-op on it,
`unthrottle_bot` twice equals once. -/
theorem claim_C10_idempotent_witness :
    throttle_bot 7 true ⟨true, some 3, true, some 2, 0, true, false, some (true, true)⟩ =
      ⟨true, some 3, true, some 2, 0, true, false, some (true, true)⟩ ∧
    unthrottle_bot true (unthrottle_bot true
        ⟨true, some 3, true, some 2, 0, true, false, some (true, true)⟩) =
      unthrottle_bot true ⟨true, some 3, true, some 2, 0, true, false, some (true, true)⟩ :=
  ⟨(claim_C10_idempotent ⟨true, some 3, true, some 2, 0, true, false, some (true, true)⟩
      7 7 true).1 (Or.inr rfl),
   (claim_C10_idempotent ⟨true, some 3, true, some 2, 0, true, false, some (true, true)⟩
      7 7 true).2.2.2⟩

/-- C7 (amended): `get_pi_temperature` attempts the file fallback ONLY when
the primary command completes with a non-zero return code; when the primary
raises (launch failure or the 5 s timeout) — or when its output parse raises
— the single surrounding `except` returns `None` without reading the sensor
file.  On a non-zero exit the fallback returns the file's milli-degree value
divided by 1000, and `None` exactly when the file read fails too. -/
theorem claim_C7_probe_fallback (fr : FileResult) (p : Option Temp)
    (rc m : Int) (hrc : rc ≠ 0) :
    get_pi_temperature PrimResult.raises fr = none ∧
    get_pi_temperature (PrimResult.exits 0 p) fr = p ∧
    get_pi_temperature (PrimResult.exits rc p) (FileResult.ok m) =
      some ((m : Temp) / 1000) ∧
    get_pi_temperature (PrimResult.exits rc p) FileResult.fails = none := by
  refine ⟨rfl, by simp [get_pi_temperature], ?_, ?_⟩ <;>
    simp [get_pi_temperature, hrc]

/-- C7 witness: non-zero exit with readable sensor file gives 42 °C. -/
theorem claim_C7_probe_fallback_witness :
    get_pi_temperature (PrimResult.exits 1 none) (FileResult.ok 42000) =
      some 42 ∧
    get_pi_temperature (PrimResult.exits 1 none) FileResult.fails = none := by
  refine ⟨?_, (claim_C7_probe_fallback FileResult.fails none 1 42000 (by decide)).2.2.2⟩
  have h := (claim_C7_probe_fallback (FileResult.ok 42000) none 1 42000 (by decide)).2.2.1
  rw [h]
  norm_num

/-- C4 (amended): alert dispatch is `await`ed inline in the sampling loop,
not decoupled from it: the time from one sample to the next equals the sum
of the delivery times of the alerts emitted that tick plus `CHECK_INTERVAL`,
a channel whose three permitted attempts all fail costs its attempt
durations plus two `DISCORD_RETRY_DELAY` (30 s) sleeps, and therefore any
positive delivery time delays the next sample beyond `sampleInterval`. -/
theorem claim_C4_inline_dispatch (ds : List Nat) (d1 d2 d3 : Nat) :
    tickSeconds ds = ds.sum + CHECK_INTERVAL ∧
    channelDeliverySeconds [(d1, false), (d2, false), (d3, false)] =
      d1 + d2 + d3 + 2 * DISCORD_RETRY_DELAY ∧
    (0 < ds.sum → CHECK_INTERVAL < tickSeconds ds) := by
  refine ⟨rfl, ?_, ?_⟩
  · simp [channelDeliverySeconds, attemptLoop, DISCORD_RETRY_DELAY]
    omega
  · intro h
    simp only [tickSeconds]
    omega

/-- C4 witness: one unreachable channel (three failed 1 s attempts) makes the
next sample come 73 s, not 10 s, after this one. -/
theorem claim_C4_inline_dispatch_witness :
    channelDeliverySeconds [(1, false), (1, false), (1, false)] =
      1 + 1 + 1 + 2 * DISCORD_RETRY_DELAY ∧
    CHECK_INTERVAL < tickSeconds [63] :=
  ⟨(claim_C4_inline_dispatch [63] 1 1 1).2.1,
   (claim_C4_inline_dispatch [63] 1 1 1).2.2 (by decide)⟩

/-- Helper: from a live throttled state, the hot branch leaves the worker
either stopped or still throttled — never running un-throttled. -/
theorem hotBranch_from_throttled (now : Nat) (temp : Temp) (ops : TickOps)
    (s : SupState) (hA : s.botAlive = true) (hTh : s.isThrottled = true) :
    (hotBranch now temp ops s).1.botAlive = false ∨
    (hotBranch now temp ops s).1.isThrottled = true := by
  obtain ⟨renT, renU, stp, so⟩ := ops
  obtain ⟨alive, pid, thr, tstart, ra, oa, ca, sf⟩ := s
  simp only at hA hTh
  subst hA
  subst hTh
  cases oa <;> cases stp <;>
    simp only [hotBranch, stop_bot] <;>
    split_ifs <;> simp_all

/-- C5 (amended): hysteresis holds — once `Throttled`, a tick whose sample is
≥ resumeThreshold never yields `Running` (a sample in the band
[resumeThreshold, alertThreshold) leaves the state and the whole globals
unchanged), and a sample strictly below resumeThreshold restores normal
priority and yields `Running`; the throttle window, however, is NOT cleared
on that transition — `unthrottle_bot` leaves `THROTTLE_START_TIME` as is. -/
theorem claim_C5_hysteresis (now : Nat) (temp : Temp) (ops : TickOps)
    (s : SupState) (hA : s.botAlive = true) (hTh : s.isThrottled = true)
    (hpid : truthy s.botPid = true) :
    (TEMP_RESUME_THRESHOLD ≤ temp →
      stateOf (monitor_tick now temp ops s).1 ≠ SState.Running) ∧
    (TEMP_RESUME_THRESHOLD ≤ temp → temp < TEMP_ALERT_THRESHOLD →
      monitor_tick now temp ops s = (s, []) ∧
      stateOf (monitor_tick now temp ops s).1 = SState.Throttled) ∧
    (temp < TEMP_RESUME_THRESHOLD → ops.reniceUnthrottleOk = true →
      stateOf (monitor_tick now temp ops s).1 = SState.Running ∧
      (monitor_tick now temp ops s).1.throttleStart = s.throttleStart) := by
  refine ⟨?_, ?_, ?_⟩
  · intro h60
    by_cases h85 : TEMP_ALERT_THRESHOLD ≤ temp
    · rw [monitor_tick, if_pos h85]
      rcases hotBranch_from_throttled now temp ops s hA hTh with h | h
      · simp [stateOf, h]
      · simp only [stateOf, h]
        split_ifs <;> simp
    · have h60' : ¬ temp < TEMP_RESUME_THRESHOLD := not_lt.mpr h60
      simp [monitor_tick, h85, h60', stateOf, hA, hTh]
  · intro h60 h85'
    have h85 : ¬ TEMP_ALERT_THRESHOLD ≤ temp := not_le.mpr h85'
    have h60' : ¬ temp < TEMP_RESUME_THRESHOLD := not_lt.mpr h60
    simp [monitor_tick, h85, h60', stateOf, hA, hTh]
  · intro h60 hren
    have h85 : ¬ TEMP_ALERT_THRESHOLD ≤ temp := by
      unfold TEMP_ALERT_THRESHOLD TEMP_RESUME_THRESHOLD at *
      intro hc
      linarith
    obtain ⟨renT, renU, stp, so⟩ := ops
    simp only at hren
    subst hren
    simp [monitor_tick, h85, h60, coolBranch, hA, hTh, unthrottle_bot, hpid,
      stateOf]

/-- C5 witness: a concrete live throttled worker (window at second 15): a
sample of 70 (hysteresis band) keeps it `Throttled`, a sample of 50 yields
`Running` with the window still at `some 15`. -/
theorem claim_C5_hysteresis_witness :
    stateOf (monitor_tick 30 70 ⟨true, true, true, none⟩
      ⟨true, some 11, true, some 15, 0, true, false, some (true, true)⟩).1 =
      SState.Throttled ∧
    stateOf (monitor_tick 30 50 ⟨true, true, true, none⟩
      ⟨true, some 11, true, some 15, 0, true, false, some (true, true)⟩).1 =
      SState.Running ∧
    (monitor_tick 30 50 ⟨true, true, true, none⟩
      ⟨true, some 11, true, some 15, 0, true, false, some (true, true)⟩).1.throttleStart
      = some 15 :=
  ⟨((claim_C5_hysteresis 30 70 ⟨true, true, true, none⟩
      ⟨true, some 11, true, some 15, 0, true, false, some (true, true)⟩
      rfl rfl rfl).2.1 (by decide) (by decide)).2,
   ((claim_C5_hysteresis 30 50 ⟨true, true, true, none⟩
      ⟨true, some 11, true, some 15, 0, true, false, some (true, true)⟩
      rfl rfl rfl).2.2 (by decide) rfl).1,
   ((claim_C5_hysteresis 30 50 ⟨true, true, true, none⟩
      ⟨true, some 11, true, some 15, 0, true, false, some (true, true)⟩
      rfl rfl rfl).2.2 (by decide) rfl).2⟩

/-- Helper: the hot branch preserves "a throttled worker has a truthy
throttle window" (it only ever sets the window to the current non-zero
time). -/
theorem hotBranch_preserves_window (now : Nat) (temp : Temp) (ops : TickOps)
    (s : SupState) (hn : now ≠ 0)
    (h : s.isThrottled = true → truthy s.throttleStart = true) :
    (hotBranch now temp ops s).1.isThrottled = true →
    truthy (hotBranch now temp ops s).1.throttleStart = true := by
  obtain ⟨renT, renU, stp, so⟩ := ops
  obtain ⟨alive, pid, thr, tstart, ra, oa, ca, sf⟩ := s
  simp only at h
  cases thr with
  | true =>
    have h' : truthy tstart = true := h rfl
    cases alive <;> cases oa <;> cases stp <;>
      simp [hotBranch, stop_bot, h'] <;>
      split_ifs <;> simp_all
  | false =>
    have hsn : truthy (some now) = true := by simp [truthy, hn]
    rcases Bool.eq_false_or_eq_true (truthy pid) with hp | hp <;>
      cases alive <;> cases oa <;> cases renT <;> cases stp <;>
      simp [hotBranch, throttle_bot, stop_bot, hp, hsn] <;>
      split_ifs <;> simp_all

/-- Helper: the cool branch preserves the same window property (it never
touches the window and every start clears `IS_THROTTLED`). -/
theorem coolBranch_preserves_window (ops : TickOps) (s : SupState)
    (h : s.isThrottled = true → truthy s.throttleStart = true) :
    (coolBranch ops s).1.isThrottled = true →
    truthy (coolBranch ops s).1.throttleStart = true := by
  obtain ⟨renT, renU, stp, so⟩ := ops
  obtain ⟨alive, pid, thr, tstart, ra, oa, ca, sf⟩ := s
  simp only at h
  rcases so with _ | newPid <;>
    cases alive <;> cases thr <;> cases ca <;> cases renU <;>
    simp [coolBranch, unthrottle_bot, start_bot] <;>
    first
      | (split_ifs <;> simp_all)
      | simp_all

theorem tick_preserves_window (now : Nat) (temp : Temp) (ops : TickOps)
    (s : SupState) (hn : now ≠ 0)
    (h : s.isThrottled = true → truthy s.throttleStart = true) :
    (monitor_tick now temp ops s).1.isThrottled = true →
    truthy (monitor_tick now temp ops s).1.throttleStart = true := by
  rw [monitor_tick]
  split_ifs with h85 h60
  · exact hotBranch_preserves_window now temp ops s hn h
  · exact coolBranch_preserves_window ops s h
  · exact h

/-- C6 (amended): the throttle window is set (to a truthy timestamp)
whenever the state is `Throttled`, and this is preserved by every tick — but
the converse direction of the claim is false: `unthrottle_bot`, `stop_bot`
and `start_bot` all leave `THROTTLE_START_TIME` unchanged, so the window is
NOT cleared on leaving `Throttled` and may be non-null while not throttled. -/
theorem claim_C6_throttle_window (s : SupState) (now : Nat) (o ok f : Bool)
    (oc : Option Nat) (ops : TickOps) (temp : Temp) (hn : now ≠ 0)
    (h : s.isThrottled = true → truthy s.throttleStart = true) :
    (unthrottle_bot o s).throttleStart = s.throttleStart ∧
    ((stop_bot f ok s).1).throttleStart = s.throttleStart ∧
    ((start_bot oc s).1).throttleStart = s.throttleStart ∧
    ((monitor_tick now temp ops s).1.isThrottled = true →
      truthy (monitor_tick now temp ops s).1.throttleStart = true) := by
  refine ⟨?_, ?_, ?_, tick_preserves_window now temp ops s hn h⟩
  · rw [unthrottle_bot]
    split_ifs <;> rfl
  · rw [stop_bot]
    split_ifs <;> rfl
  · rcases oc with _ | pid <;> simp only [start_bot] <;> split_ifs <;> rfl

/-- C6 witness: a live throttled worker with window at second 77 — the
window survives unthrottle, stop and start unchanged. -/
theorem claim_C6_throttle_window_witness :
    (unthrottle_bot true
      ⟨true, some 4, true, some 77, 0, true, false, some (true, true)⟩).throttleStart
      = some 77 ∧
    ((stop_bot true true
      ⟨true, some 4, true, some 77, 0, true, false, some (true, true)⟩).1).throttleStart
      = some 77 ∧
    ((start_bot (some 6)
      ⟨true, some 4, true, some 77, 0, true, false, some (true, true)⟩).1).throttleStart
      = some 77 ∧
    ((monitor_tick 5 86 ⟨true, true, true, none⟩
        ⟨true, some 4, true, some 77, 0, true, false, some (true, true)⟩).1.isThrottled = true →
      truthy (monitor_tick 5 86 ⟨true, true, true, none⟩
        ⟨true, some 4, true, some 77, 0, true, false, some (true, true)⟩).1.throttleStart = true) :=
  claim_C6_throttle_window
    ⟨true, some 4, true, some 77, 0, true, false, some (true, true)⟩
    5 true true true (some 6) ⟨true, true, true, none⟩ 86 (by decide)
    (fun _ => by decide)

/-- C2 (amended): restart exhaustion is NOT latched.  On every tick with no
live worker and a sample below resumeThreshold a start is attempted,
regardless of the counter; when the attempt fails and the counter reaches
`MAX_RESTART_ATTEMPTS` the fatal `logging.critical` fires and the counter
self-resets to 0 (so the fatal alert recurs every 3 consecutive failures and
auto-start is never suspended); below the threshold the counter increments
with no fatal; a successful start resets the counter and yields `Running`. -/
theorem claim_C2_restart_policy (now : Nat) (temp : Temp) (ops : TickOps)
    (s : SupState) (hA : s.botAlive = false)
    (ht : temp < TEMP_RESUME_THRESHOLD) :
    Event.startAttempt ∈ (monitor_tick now temp ops s).2 ∧
    (ops.startOutcome = none →
      MAX_RESTART_ATTEMPTS ≤ s.restartAttempts + 1 →
      Event.fatalLog ∈ (monitor_tick now temp ops s).2 ∧
      (monitor_tick now temp ops s).1.restartAttempts = 0) ∧
    (ops.startOutcome = none →
      s.restartAttempts + 1 < MAX_RESTART_ATTEMPTS →
      Event.fatalLog ∉ (monitor_tick now temp ops s).2 ∧
      (monitor_tick now temp ops s).1.restartAttempts = s.restartAttempts + 1) ∧
    (∀ newPid, ops.startOutcome = some newPid →
      (monitor_tick now temp ops s).1.restartAttempts = 0 ∧
      stateOf (monitor_tick now temp ops s).1 = SState.Running) := by
  have h85 : ¬ TEMP_ALERT_THRESHOLD ≤ temp := by
    unfold TEMP_ALERT_THRESHOLD TEMP_RESUME_THRESHOLD at *
    intro hc
    linarith
  obtain ⟨renT, renU, stp, so⟩ := ops
  obtain ⟨alive, pid, thr, tstart, ra, oa, ca, sf⟩ := s
  simp only at hA ⊢
  subst hA
  refine ⟨?_, ?_, ?_, ?_⟩
  · rcases so with _ | newPid <;> cases ca <;>
      by_cases hm : MAX_RESTART_ATTEMPTS ≤ ra + 1 <;>
      simp [monitor_tick, h85, ht, coolBranch, start_bot, hm]
  · intro hso hmax
    subst hso
    cases ca <;> simp [monitor_tick, h85, ht, coolBranch, start_bot, hmax]
  · intro hso hlt
    subst hso
    have hm : ¬ MAX_RESTART_ATTEMPTS ≤ ra + 1 := not_le.mpr hlt
    cases ca <;> simp [monitor_tick, h85, ht, coolBranch, start_bot, hm]
  · intro newPid hso
    subst hso
    cases ca <;>
      simp [monitor_tick, h85, ht, coolBranch, start_bot, stateOf]

/-- C2 witness: from `Stopped` with the counter at 2, a failing start at a
sample of 50 attempts the start, fires the fatal log (third consecutive
failure) and resets the counter to 0. -/
theorem claim_C2_restart_policy_witness :
    Event.startAttempt ∈ (monitor_tick 10 50 ⟨true, true, true, none⟩
      ⟨false, none, false, none, 2, false, true, none⟩).2 ∧
    Event.fatalLog ∈ (monitor_tick 10 50 ⟨true, true, true, none⟩
      ⟨false, none, false, none, 2, false, true, none⟩).2 ∧
    (monitor_tick 10 50 ⟨true, true, true, none⟩
      ⟨false, none, false, none, 2, false, true, none⟩).1.restartAttempts = 0 :=
  ⟨(claim_C2_restart_policy 10 50 ⟨true, true, true, none⟩
      ⟨false, none, false, none, 2, false, true, none⟩ rfl (by decide)).1,
   ((claim_C2_restart_policy 10 50 ⟨true, true, true, none⟩
      ⟨false, none, false, none, 2, false, true, none⟩ rfl (by decide)).2.1
      rfl (by decide)).1,
   ((claim_C2_restart_policy 10 50 ⟨true, true, true, none⟩
      ⟨false, none, false, none, 2, false, true, none⟩ rfl (by decide)).2.1
      rfl (by decide)).2⟩

end TemperatureManager
